import Mathlib

/-!
Shallow embedding of the vayubox transfer engine, translated from the
JavaScript sources:

  * `src/utils/fileUtils.js`        (chunking policy: `getOptimalChunkSize`, `isLargeFile`)
  * `src/services/enhancedS3Service.js` (`uploadToS3Enhanced`, `uploadLargeFile`,
                                     `getS3DownloadUrlEnhanced`)
  * `src/services/s3Service.js`     (`resumeMultipartUpload`)
  * `src/services/glacierService.js` (`checkGlacierStatus`, `restoreFromGlacier`,
                                     `restoreFromGlacierBulk`)
  * `TransferContext` (React context provider holding the in-memory transfer
    registry: `addTransfer`, `updateTransfer`, `updateTransferProgress`,
    `completeTransfer`, `errorTransfer`, `pauseTransfer`, `resumeTransfer`,
    `cancelTransfer`, `removeTransfer`)

Modelling conventions, stated once here:

  * Byte counts, timestamps (`Date.now()`) and part numbers are `Nat`.
  * Transfer ids are produced in the source by `Date.now().toString()`.
    `Nat.toString` is injective, so we model an id by the numeric timestamp
    itself; equality and distinctness of ids are preserved exactly.
  * JavaScript `undefined` / `null` record fields are modelled as `Option`.
    A floating-point `NaN`/`Infinity` progress value (division by a zero
    total) is modelled as `none`.
  * `Math.round (a / b)` on non-negative rationals is half-up rounding,
    `(2*a + b) / (2*b)` in natural-number division; on possibly negative
    numerators it is `Int.fdiv (2*a + b) (2*b)` (floor of `a/b + 1/2`),
    which agrees with JavaScript for every finite value with `b > 0`.
  * Network I/O and DOM side effects are not executed; a fallible remote
    call is represented by the data it returns (or an oracle giving the
    per-item success of a restore request), and fallible whole operations
    return `Except`/`Option`.
-/

/-! ## Chunking Policy (`src/utils/fileUtils.js`) -/

/-- `getOptimalChunkSize(fileSizeInBytes)` from `fileUtils.js`: the
size-tiered chunk size used by multipart uploads. -/
def getOptimalChunkSize (fileSizeInBytes : Nat) : Nat :=
  if fileSizeInBytes < 100 * 1024 * 1024 then
    5 * 1024 * 1024
  else if fileSizeInBytes < 1024 * 1024 * 1024 then
    10 * 1024 * 1024
  else if fileSizeInBytes < 5 * 1024 * 1024 * 1024 then
    25 * 1024 * 1024
  else if fileSizeInBytes < 10 * 1024 * 1024 * 1024 then
    50 * 1024 * 1024
  else
    100 * 1024 * 1024

/-- `isLargeFile(sizeInBytes)` from `fileUtils.js`: strictly above 1 GiB. -/
def isLargeFile (sizeInBytes : Nat) : Bool :=
  sizeInBytes > 1024 * 1024 * 1024

/-! ## Upload Engine (`src/services/enhancedS3Service.js`) -/

/-- `OPTIMAL_CHUNK_SIZE` constant in `enhancedS3Service.js` (100 MB). -/
def OPTIMAL_CHUNK_SIZE : Nat := 100 * 1024 * 1024

/-- `LARGE_FILE_THRESHOLD` constant in `enhancedS3Service.js` (1 GiB). -/
def LARGE_FILE_THRESHOLD : Nat := 1024 * 1024 * 1024

/-- The chunk size computed inside `uploadLargeFile`:
`Math.min(OPTIMAL_CHUNK_SIZE, 100 * 1024 * 1024)`. -/
def largeFileChunkSize : Nat := min OPTIMAL_CHUNK_SIZE (100 * 1024 * 1024)

/-- The upload path chosen by `uploadToS3Enhanced` for a given file size:
a single PUT, the SDK's managed multipart `Upload` (with its `queueSize`
and fixed `partSize`), or the manual sequential multipart loop
`uploadLargeFile` (with its chunk size). -/
inductive UploadStrategy where
  | simplePut : UploadStrategy
  | managedMultipart (queueSize partSizeBytes : Nat) : UploadStrategy
  | manualMultipart (chunkSizeBytes : Nat) : UploadStrategy
deriving DecidableEq, Repr

/-- The size-tier dispatch of `uploadToS3Enhanced` (the happy path; the
memory-pressure fallbacks from PUT/managed paths to `uploadLargeFile` only
move additional sizes onto the manual path and are not taken on the main
branch):
`fileSize > 1 GiB` manual; `< 25 MiB` simple PUT; `< 100 MiB` managed
`Upload` with `queueSize: 4` and `partSize: 10 MiB`; otherwise manual. -/
def selectUploadStrategy (fileSize : Nat) : UploadStrategy :=
  if fileSize > LARGE_FILE_THRESHOLD then
    .manualMultipart largeFileChunkSize
  else if fileSize < 25 * 1024 * 1024 then
    .simplePut
  else if fileSize < 100 * 1024 * 1024 then
    .managedMultipart 4 (10 * 1024 * 1024)
  else
    .manualMultipart largeFileChunkSize

/-- `Math.ceil(fileSize / chunkSize)` on naturals. -/
def ceilDiv (a b : Nat) : Nat := (a + b - 1) / b

/-- One entry of the `completedParts` / `newParts` array handed to
`CompleteMultipartUploadCommand`; only the part number matters for the
spec (the `ETag` string is opaque), plus whether it was reused from
`ListParts` on the resume path. -/
structure PartRecord where
  partNumber : Nat
  fromExisting : Bool
deriving DecidableEq, Repr

/-- The `completedParts` array built by the loop in `uploadLargeFile` when
every part upload has succeeded (the only way the code reaches the
complete-multipart call): iteration `i` of `0..numParts-1` pushes exactly
one record with `PartNumber: i + 1`. -/
def uploadLargeFileParts (fileSize : Nat) : List PartRecord :=
  (List.range (ceilDiv fileSize largeFileChunkSize)).map (fun i => ⟨i + 1, false⟩)

/-- The comparator `(a, b) => a.PartNumber - b.PartNumber` used by both
complete-multipart call sites, as the ordering it sorts by. -/
def partNumberLe (a b : PartRecord) : Prop := a.partNumber ≤ b.partNumber

instance : DecidableRel partNumberLe := fun a b => by
  unfold partNumberLe; infer_instance

/-- `completedParts.sort((a, b) => a.PartNumber - b.PartNumber)` in
`uploadLargeFile`: the part list actually submitted to
`CompleteMultipartUploadCommand`. -/
def uploadLargeFileSortedParts (fileSize : Nat) : List PartRecord :=
  List.insertionSort partNumberLe (uploadLargeFileParts fileSize)

/-- The `newParts` array built by `resumeMultipartUpload` in
`s3Service.js` when the complete call is reached: iteration `i` of
`0..numParts-1` pushes exactly one record with `PartNumber: i + 1`,
reusing the `ETag` from `ListParts` when part `i + 1` was already
uploaded (`existing (i+1)`), uploading it otherwise. -/
def resumeMultipartParts (fileSize : Nat) (existing : Nat → Bool) : List PartRecord :=
  (List.range (ceilDiv fileSize (getOptimalChunkSize fileSize))).map
    (fun i => ⟨i + 1, existing (i + 1)⟩)

/-- `newParts.sort((a, b) => a.PartNumber - b.PartNumber)` in
`resumeMultipartUpload`. -/
def resumeMultipartSortedParts (fileSize : Nat) (existing : Nat → Bool) : List PartRecord :=
  List.insertionSort partNumberLe (resumeMultipartParts fileSize existing)

/-! ## Archive Restore Engine (`src/services/glacierService.js`) -/

/-- The parsed restore state built by `checkGlacierStatus` from the
`Restore` response header.  `ongoingRequest` is
`ongoingMatch ? ongoingMatch[1] === 'true' : null` (hence `Option Bool`);
`isReady` is `ongoingMatch && ongoingMatch[1] === 'false'`, which is the
falsy `null` when the header carried no `ongoing-request` field - it is
only ever used in boolean position, so we model it as `Bool`. -/
structure RestoreStatus where
  ongoingRequest : Option Bool
  isReady : Bool
deriving DecidableEq, Repr

/-- The value returned by `checkGlacierStatus`: whether the storage class
is an archive class, and the parsed `Restore` header when present
(`null` otherwise). -/
structure GlacierStatus where
  isGlacier : Bool
  restoreStatus : Option RestoreStatus
deriving DecidableEq, Repr

/-- `checkGlacierStatus` in `glacierService.js`, after the `HeadObject`
round-trip: `storageClass` is the response's `StorageClass` and
`ongoingMatch` is the captured group of
`/ongoing-request="([^"]+)"/` on the `Restore` header (`none` when the
header is absent, or present but without the field). `restoreStatus` is
built only when the object is in an archive class and a `Restore` header
was present (`restorePresent`). -/
def checkGlacierStatus (storageClass : String) (restorePresent : Bool)
    (ongoingMatch : Option String) : GlacierStatus :=
  let isGlacier := storageClass == "GLACIER" || storageClass == "DEEP_ARCHIVE"
  let restoreStatus :=
    if isGlacier && restorePresent then
      some { ongoingRequest := ongoingMatch.map (fun s => s == "true")
             isReady := match ongoingMatch with
                        | some s => s == "false"
                        | none => false }
    else
      none
  { isGlacier := isGlacier, restoreStatus := restoreStatus }

/-- The archive guard at the top of `getS3DownloadUrlEnhanced`
(`enhancedS3Service.js` line 375):

`if (glacierStatus.isGlacier && !glacierStatus.restoreStatus?.ongoingRequest === false) throw ...`

JavaScript parses the second conjunct as
`(!(glacierStatus.restoreStatus?.ongoingRequest)) === false`, so it is
`true` exactly when `restoreStatus?.ongoingRequest` is truthy, i.e. the
chain produced the boolean `true` (an absent `restoreStatus` gives
`undefined`, `null` and `false` give falsy values). -/
def downloadGuardThrows (glacierStatus : GlacierStatus) : Bool :=
  glacierStatus.isGlacier &&
    (match glacierStatus.restoreStatus with
     | some rs => rs.ongoingRequest == some true
     | none => false)

/-- `statusCheck.restoreStatus?.ongoingRequest === true` (first early
return of `restoreFromGlacier`). -/
def ongoingRequestIsTrue (st : GlacierStatus) : Bool :=
  match st.restoreStatus with
  | some rs => rs.ongoingRequest == some true
  | none => false

/-- `statusCheck.restoreStatus?.isReady` in boolean position (second
early return of `restoreFromGlacier`, and the poll's ready test). -/
def restoreStatusIsReady (st : GlacierStatus) : Bool :=
  match st.restoreStatus with
  | some rs => rs.isReady
  | none => false

/-- The `status` field of the object returned by `restoreFromGlacier`. -/
inductive RestoreResultStatus where
  | inProgress
  | completed
  | initiated
deriving DecidableEq, Repr

/-- What one call to `restoreFromGlacier` does, given the result of its
own status check: the returned `status`, and whether a
`RestoreObjectCommand` was sent to the store. -/
structure RestoreOutcome where
  status : RestoreResultStatus
  issuedRestoreRequest : Bool
deriving DecidableEq, Repr

/-- The decision structure of `restoreFromGlacier` (`glacierService.js`
lines 91-139): return `in_progress` without a request when the status
check reports an ongoing restore, return `completed` ("already restored
and available") without a request when it reports ready, otherwise send
the `RestoreObjectCommand` (7-day retention, chosen tier) and return
`initiated`. -/
def restoreFromGlacier (statusCheck : GlacierStatus) : RestoreOutcome :=
  if ongoingRequestIsTrue statusCheck then
    { status := .inProgress, issuedRestoreRequest := false }
  else if restoreStatusIsReady statusCheck then
    { status := .completed, issuedRestoreRequest := false }
  else
    { status := .initiated, issuedRestoreRequest := true }

/-- The per-object filter of `restoreFromGlacierBulk` (line 224):
`status.isGlacier && (!status.restoreStatus || !status.restoreStatus.isReady)`. -/
def archivedNotReady (st : GlacierStatus) : Bool :=
  st.isGlacier &&
    (match st.restoreStatus with
     | none => true
     | some rs => !rs.isReady)

/-- One listed object under the folder prefix, paired with the result of
its `checkGlacierStatus` probe; `none` models the probe throwing (the
loop logs and continues with the other objects). -/
structure BulkEntry where
  key : String
  status : Option GlacierStatus
deriving Repr

/-- The `glacierObjects` array of `restoreFromGlacierBulk`: the listed
objects whose status probe succeeded and reported archived-and-not-ready,
in listing order. -/
def glacierObjects (objs : List BulkEntry) : List BulkEntry :=
  objs.filter (fun o =>
    match o.status with
    | none => false
    | some st => archivedNotReady st)

/-- The value returned by `restoreFromGlacierBulk`: either the early
return when no archive object needs restoration (`restoredFiles: 0`,
no `failedFiles` field), or the final tally. -/
inductive BulkResult where
  | noCandidates
  | done (restoredFiles failedFiles : Nat)
deriving DecidableEq, Repr

/-- `restoredFiles` of a bulk result (`0` on the early return). -/
def BulkResult.restored : BulkResult → Nat
  | .noCandidates => 0
  | .done r _ => r

/-- `failedFiles` of a bulk result (absent, hence `0`, on the early
return). -/
def BulkResult.failed : BulkResult → Nat
  | .noCandidates => 0
  | .done _ f => f

/-- The sequential restore loop of `restoreFromGlacierBulk` (lines
256-276): one awaited `restoreFromGlacier` per item in order,
incrementing `successCount` when the call returns and `failCount` when it
throws (`outcome k = false`), never aborting the loop. -/
def bulkRestoreLoop (outcome : String → Bool) :
    List BulkEntry → Nat × Nat → Nat × Nat
  | [], acc => acc
  | item :: rest, (successCount, failCount) =>
      if outcome item.key then
        bulkRestoreLoop outcome rest (successCount + 1, failCount)
      else
        bulkRestoreLoop outcome rest (successCount, failCount + 1)

/-- `restoreFromGlacierBulk` (`glacierService.js` lines 202-296) over the
single `ListObjectsV2` page `objs`, with `outcome k` telling whether the
restore request for key `k` succeeded: throws when the listing is empty,
returns early when no object is archived-and-not-ready, otherwise
restores the filtered objects sequentially and reports the tally. -/
def restoreFromGlacierBulk (objs : List BulkEntry) (outcome : String → Bool) :
    Except String BulkResult :=
  if objs.isEmpty then
    .error "No objects found in folder"
  else
    let gl := glacierObjects objs
    if gl.isEmpty then
      .ok .noCandidates
    else
      let (successCount, failCount) := bulkRestoreLoop outcome gl (0, 0)
      .ok (.done successCount failCount)

/-- The field names of the object literal `restoreFromGlacierBulk`
returns: the no-candidates early return (line 234) is
`{message, restoredFiles: 0}`, the tally return (line 292) is
`{message, restoredFiles, failedFiles}`.  Neither carries a
`totalFiles` field. -/
def bulkResultFields : BulkResult → List String
  | .noCandidates => ["message", "restoredFiles"]
  | .done _ _ => ["message", "restoredFiles", "failedFiles"]

/-! ## Transfer Tracker (`TransferContext` provider) -/

/-- The `status` strings a Transfer can carry in the source:
`in_progress`, `paused`, `completed`, `error`, `cancelled`, plus the
extra statuses written through descriptors or `updateTransfer`
(`initiating`, `compressing`, `completed_with_errors`). -/
inductive TransferStatus where
  | inProgress
  | paused
  | completed
  | error
  | cancelled
  | initiating
  | compressing
  | completedWithErrors
deriving DecidableEq, Repr

/-- One entry of the `transfers` registry array.  Fields mirror the
object literal built by `addTransfer` plus the fields later written by
the update operations; fields a JavaScript object simply lacks until
first written (`loaded`, `total`, `key`, `size`, timestamps of
completion/error) are `Option`.  The `controller` (abort signal) and the
`event` passthrough argument are external handles with no bearing on the
registry state and are not modelled. -/
structure Transfer where
  id : Nat
  name : String
  type : String
  size : Option Nat
  key : Option String
  progress : Option Nat
  status : TransferStatus
  bytesPerSecond : Int
  estimatedTimeRemaining : Option Int
  startTime : Nat
  lastUpdateTime : Nat
  lastBytes : Nat
  loaded : Option Nat
  total : Option Nat
  errorMessage : Option String
  completedAt : Option Nat
  errorAt : Option Nat
  resumed : Bool
  originalId : Option Nat
deriving DecidableEq, Repr

/-- The argument object of `addTransfer`, as built by its call sites
(upload, download, restore, bulk-restore, resume).  Absent fields of the
literal are `none`/`false`; `status` present overrides the
`'in_progress'` default through the object spread.  Call-site-specific
metadata fields with no further reads in the tracker (`fileCount`,
`tier`) are not modelled. -/
structure TransferDescriptor where
  name : String
  type : String
  size : Option Nat := none
  key : Option String := none
  loaded : Option Nat := none
  status : Option TransferStatus := none
  resumed : Bool := false
  originalId : Option Nat := none
deriving Repr

/-- The snapshot written into `pausedTransfers[id]` by `pauseTransfer`. -/
structure PausedSnapshot where
  key : Option String
  name : String
  type : String
  loaded : Option Nat
  total : Option Nat
  pausedAt : Nat
deriving DecidableEq, Repr

/-- The mutable state owned by the provider: the `transfers` array and
the `pausedTransfers` object (a string-keyed map, modelled as an
association list with upsert/delete; ids are numeric timestamps, see the
header note). -/
structure TrackerState where
  transfers : List Transfer
  paused : List (Nat × PausedSnapshot)
deriving Repr

/-- The empty initial state (`useState([])` / `useState({})`). -/
def emptyTracker : TrackerState := { transfers := [], paused := [] }

/-- `pausedTransfers[id]` lookup. -/
def lookupPaused (m : List (Nat × PausedSnapshot)) (id : Nat) : Option PausedSnapshot :=
  List.lookup id m

/-- `{...pausedState, [id]: snap}`: set/overwrite the entry for `id`. -/
def upsertPaused (m : List (Nat × PausedSnapshot)) (id : Nat) (snap : PausedSnapshot) :
    List (Nat × PausedSnapshot) :=
  (id, snap) :: m.filter (fun p => p.1 != id)

/-- `delete updated[id]`: remove the entry for `id`. -/
def deletePaused (m : List (Nat × PausedSnapshot)) (id : Nat) :
    List (Nat × PausedSnapshot) :=
  m.filter (fun p => p.1 != id)

/-- `addTransfer(transfer)`: `id = Date.now().toString()` (the `now`
argument), defaults `progress: 0`, `status: 'in_progress'`,
`bytesPerSecond: 0`, `estimatedTimeRemaining: null`,
`startTime/lastUpdateTime: now`, `lastBytes: 0`, then the descriptor
spread on top; the new entry is appended and the id returned. -/
def addTransfer (now : Nat) (d : TransferDescriptor) (s : TrackerState) :
    Nat × TrackerState :=
  let id := now
  let newTransfer : Transfer :=
    { id := id
      name := d.name
      type := d.type
      size := d.size
      key := d.key
      progress := some 0
      status := d.status.getD .inProgress
      bytesPerSecond := 0
      estimatedTimeRemaining := none
      startTime := now
      lastUpdateTime := now
      lastBytes := 0
      loaded := d.loaded
      total := none
      errorMessage := none
      completedAt := none
      errorAt := none
      resumed := d.resumed
      originalId := d.originalId }
  (id, { s with transfers := s.transfers ++ [newTransfer] })

/-- `Math.round((loaded / total) * 100)`: half-up rounding of the exact
ratio; `none` models the non-finite result when `total` is `0`. -/
def progressOf (loaded total : Nat) : Option Nat :=
  if total = 0 then none
  else some ((2 * (100 * loaded) + total) / (2 * total))

/-- `Math.round(a / b)` for integer `a` and positive integer `b`:
floor of `a / b + 1/2`. -/
def jsRoundInt (a b : Int) : Int := Int.fdiv (2 * a + b) (2 * b)

/-- `updateTransferProgress(id, loaded, total)` at time `now`: recompute
`progress`; when more than 500 ms elapsed since `lastUpdateTime`,
recompute `bytesPerSecond = Math.round(bytesDelta / (timeElapsed/1000))`
and, when that rate is positive, `estimatedTimeRemaining =
Math.round((total - loaded) / bytesPerSecond)`; finally store `loaded`,
`total`, `lastUpdateTime`, `lastBytes`.  Entries with a different id are
returned unchanged by the `map`. -/
def updateTransferProgress (id : Nat) (loaded total : Nat) (now : Nat)
    (s : TrackerState) : TrackerState :=
  { s with transfers := s.transfers.map (fun transfer =>
      if transfer.id = id then
        let progress := progressOf loaded total
        let timeElapsed : Int := (now : Int) - (transfer.lastUpdateTime : Int)
        let rateEta : Int × Option Int :=
          if 500 < timeElapsed then
            let bytesDelta : Int := (loaded : Int) - (transfer.lastBytes : Int)
            let bytesPerSecond := jsRoundInt (1000 * bytesDelta) timeElapsed
            if 0 < bytesPerSecond then
              let bytesRemaining : Int := (total : Int) - (loaded : Int)
              (bytesPerSecond, some (jsRoundInt bytesRemaining bytesPerSecond))
            else
              (bytesPerSecond, transfer.estimatedTimeRemaining)
          else
            (transfer.bytesPerSecond, transfer.estimatedTimeRemaining)
        { transfer with
            progress := progress
            loaded := some loaded
            total := some total
            bytesPerSecond := rateEta.1
            estimatedTimeRemaining := rateEta.2
            lastUpdateTime := now
            lastBytes := loaded }
      else transfer) }

/-- `completeTransfer(id)` at time `now`: status `completed`, progress
forced to `100`, rate zeroed, ETA cleared, completion timestamp set -
unconditionally on every entry whose id matches. -/
def completeTransfer (id : Nat) (now : Nat) (s : TrackerState) : TrackerState :=
  { s with transfers := s.transfers.map (fun transfer =>
      if transfer.id = id then
        { transfer with
            status := .completed
            progress := some 100
            bytesPerSecond := 0
            estimatedTimeRemaining := none
            completedAt := some now }
      else transfer) }

/-- `errorTransfer(id, error)` at time `now`. -/
def errorTransfer (id : Nat) (msg : String) (now : Nat) (s : TrackerState) :
    TrackerState :=
  { s with transfers := s.transfers.map (fun transfer =>
      if transfer.id = id then
        { transfer with
            status := .error
            errorMessage := some msg
            bytesPerSecond := 0
            estimatedTimeRemaining := none
            errorAt := some now }
      else transfer) }

/-- `pauseTransfer(id)` at time `now`: every matching entry is marked
`paused` with rate/ETA cleared, and its `{key, name, loaded, total,
type, pausedAt}` snapshot is written into `pausedTransfers[id]` (with
duplicate ids, the later entry's snapshot wins, as the nested state
updates do in the source). -/
def pauseTransfer (id : Nat) (now : Nat) (s : TrackerState) : TrackerState :=
  { transfers := s.transfers.map (fun transfer =>
      if transfer.id = id then
        { transfer with
            status := .paused
            bytesPerSecond := 0
            estimatedTimeRemaining := none }
      else transfer)
    paused := s.transfers.foldl (fun acc transfer =>
      if transfer.id = id then
        upsertPaused acc id
          { key := transfer.key
            name := transfer.name
            type := transfer.type
            loaded := transfer.loaded
            total := transfer.total
            pausedAt := now }
      else acc) s.paused }

/-- `resumeTransfer(id)` at time `now`: when a paused snapshot exists,
create a brand-new Transfer via `addTransfer` seeded with the snapshot's
`name`, `type`, `size: total`, `key`, `loaded`, flagged
`resumed: true, originalId: id`, delete the snapshot, and return the new
id; otherwise return `null` and leave the state unchanged. -/
def resumeTransfer (id : Nat) (now : Nat) (s : TrackerState) :
    Option Nat × TrackerState :=
  match lookupPaused s.paused id with
  | some pausedTransfer =>
      let step := addTransfer now
        { name := pausedTransfer.name
          type := pausedTransfer.type
          size := pausedTransfer.total
          key := pausedTransfer.key
          loaded := pausedTransfer.loaded
          status := none
          resumed := true
          originalId := some id } s
      (some step.1, { step.2 with paused := deletePaused step.2.paused id })
  | none => (none, s)

/-- `cancelTransfer(id)`: abort the attached controller (an external
side effect, not part of the registry state), mark matching entries
`cancelled` with progress zeroed and rate/ETA cleared, and delete any
paused snapshot for the id. -/
def cancelTransfer (id : Nat) (s : TrackerState) : TrackerState :=
  { transfers := s.transfers.map (fun transfer =>
      if transfer.id = id then
        { transfer with
            status := .cancelled
            progress := some 0
            bytesPerSecond := 0
            estimatedTimeRemaining := none }
      else transfer)
    paused := deletePaused s.paused id }

/-- `removeTransfer(id)`: drop matching entries from the registry and
delete any paused snapshot for the id. -/
def removeTransfer (id : Nat) (s : TrackerState) : TrackerState :=
  { transfers := s.transfers.filter (fun transfer => transfer.id != id)
    paused := deletePaused s.paused id }

/-- The fields `updateTransfer(id, updates)` is called with by the code
modelled here (the restore poll updates `progress`; the restore and bulk
paths update `status` and `progress`); a `none` field is absent from the
`updates` object and the spread keeps the old value. -/
structure TransferUpdates where
  progress : Option (Option Nat) := none
  status : Option TransferStatus := none
deriving Repr

/-- `updateTransfer(id, updates)`: `{...transfer, ...updates}` on every
entry whose id matches. -/
def updateTransfer (id : Nat) (u : TransferUpdates) (s : TrackerState) :
    TrackerState :=
  { s with transfers := s.transfers.map (fun transfer =>
      if transfer.id = id then
        { transfer with
            progress := u.progress.getD transfer.progress
            status := u.status.getD transfer.status }
      else transfer) }

/-- The simulated progress value of the restore poll
(`glacierService.js` line 163):
`Math.min(95, transfers.find(t => t.id === transferId)?.progress + 5 || 10)`.
A missing transfer or non-finite progress makes the addition `NaN`, so
`|| 10` yields `10`; otherwise `min 95 (progress + 5)` (the sum is at
least 5, hence truthy). -/
def pollProgressValue (s : TrackerState) (transferId : Nat) : Nat :=
  match s.transfers.find? (fun t => t.id == transferId) with
  | none => 10
  | some t =>
      match t.progress with
      | none => 10
      | some p => min 95 (p + 5)

/-- One tick of the `setInterval` poll installed by `restoreFromGlacier`
(lines 151-174): given the fresh `checkGlacierStatus` result, complete
the Transfer and stop (`clearInterval`, second component `false`) when
the restore is ready or the object is no longer in an archive class;
push the simulated progress and keep polling while the restore is
ongoing; otherwise keep polling with no update.  The tick never inspects
the Transfer's own status. -/
def pollTick (currentStatus : GlacierStatus) (transferId : Nat) (now : Nat)
    (s : TrackerState) : TrackerState × Bool :=
  if restoreStatusIsReady currentStatus then
    (completeTransfer transferId now s, false)
  else if ongoingRequestIsTrue currentStatus then
    (updateTransfer transferId
       { progress := some (some (pollProgressValue s transferId)) } s, true)
  else if !currentStatus.isGlacier then
    (completeTransfer transferId now s, false)
  else
    (s, true)

/-! ## Concrete scenario fixtures used by the witness theorems -/

/-- A representative upload descriptor (100-byte file `file.bin` at key
`k`), as `uploadToS3Enhanced` builds one. -/
def dFile : TransferDescriptor :=
  { name := "file.bin", type := "upload", size := some 100, key := some "k" }

/-- The registry state right after `addTransfer` at timestamp 1. -/
def wState0 : TrackerState := (addTransfer 1 dFile emptyTracker).2

/-- `wState0` after a progress callback reporting 40000 of 100000 bytes
at timestamp 600. -/
def wStateProgressed : TrackerState := updateTransferProgress 1 40000 100000 600 wState0

/-- `wStateProgressed` after `pauseTransfer` at timestamp 700. -/
def wStatePaused : TrackerState := pauseTransfer 1 700 wStateProgressed

/-- The paused snapshot `pauseTransfer` writes in the scenario above. -/
def wSnap : PausedSnapshot :=
  { key := some "k", name := "file.bin", type := "upload",
    loaded := some 40000, total := some 100000, pausedAt := 700 }

/-- The transfer of `wState0` after `completeTransfer` at timestamp 5. -/
def cTr : Transfer :=
  { id := 1, name := "file.bin", type := "upload", size := some 100,
    key := some "k", progress := some 100, status := .completed,
    bytesPerSecond := 0, estimatedTimeRemaining := none, startTime := 1,
    lastUpdateTime := 1, lastBytes := 0, loaded := none, total := none,
    errorMessage := none, completedAt := some 5, errorAt := none,
    resumed := false, originalId := none }

/-- A two-object listing: one archived object that was never restored,
one object in standard storage. -/
def wBulkObjs : List BulkEntry :=
  [ { key := "a", status := some (checkGlacierStatus "GLACIER" false none) },
    { key := "b", status := some (checkGlacierStatus "STANDARD" false none) } ]

/-- A one-object listing whose archived object is already restored and
ready (`ongoing-request="false"`), so bulk restore takes the
no-candidates early return. -/
def wReadyObjs : List BulkEntry :=
  [ { key := "c", status := some (checkGlacierStatus "DEEP_ARCHIVE" true (some "false")) } ]

/-! ## Helper lemmas -/

/-- Part numbers of a list built as `(range n).map g` where iteration
`i` pushes a record with part number `i + 1`. -/
theorem partNumbers_of_mk (n : Nat) (g : Nat → PartRecord)
    (hg : ∀ i, (g i).partNumber = i + 1) :
    (((List.range n).map g).map PartRecord.partNumber) =
      (List.range n).map (fun i => i + 1) := by
  rw [List.map_map]
  exact List.map_congr_left (fun i _ => hg i)

/-- A part list built in loop order is already sorted by part number. -/
theorem sorted_parts_of_mk (n : Nat) (g : Nat → PartRecord)
    (hg : ∀ i, (g i).partNumber = i + 1) :
    List.Sorted partNumberLe ((List.range n).map g) := by
  rw [List.Sorted, List.pairwise_map]
  exact (List.pairwise_lt_range n).imp
    (by intro a b h; simp only [partNumberLe, hg]; omega)

theorem mem_map_add_one_range (n k : Nat) :
    k ∈ (List.range n).map (fun i => i + 1) ↔ 1 ≤ k ∧ k ≤ n := by
  simp only [List.mem_map, List.mem_range]
  constructor
  · rintro ⟨i, hi, rfl⟩; omega
  · rintro ⟨h1, h2⟩; exact ⟨k - 1, by omega, by omega⟩

theorem pairwise_lt_map_add_one_range (n : Nat) :
    List.Pairwise (fun a b => a < b) ((List.range n).map (fun i => i + 1)) := by
  rw [List.pairwise_map]
  exact (List.pairwise_lt_range n).imp (by intro a b h; omega)

/-! ## C10 -/

/-- C10: `getOptimalChunkSize` returns 5 MiB below 100 MiB, 10 MiB on
[100 MiB, 1 GiB), 25 MiB on [1 GiB, 5 GiB), 50 MiB on [5 GiB, 10 GiB),
100 MiB from 10 GiB on; it is monotonically non-decreasing and its value
is always one of the five tier constants. -/
theorem chunkSizeFor_tiers :
    (∀ s, s < 100 * 1024 * 1024 → getOptimalChunkSize s = 5 * 1024 * 1024) ∧
    (∀ s, 100 * 1024 * 1024 ≤ s → s < 1024 * 1024 * 1024 →
      getOptimalChunkSize s = 10 * 1024 * 1024) ∧
    (∀ s, 1024 * 1024 * 1024 ≤ s → s < 5 * 1024 * 1024 * 1024 →
      getOptimalChunkSize s = 25 * 1024 * 1024) ∧
    (∀ s, 5 * 1024 * 1024 * 1024 ≤ s → s < 10 * 1024 * 1024 * 1024 →
      getOptimalChunkSize s = 50 * 1024 * 1024) ∧
    (∀ s, 10 * 1024 * 1024 * 1024 ≤ s → getOptimalChunkSize s = 100 * 1024 * 1024) ∧
    (∀ a b, a ≤ b → getOptimalChunkSize a ≤ getOptimalChunkSize b) ∧
    (∀ s, getOptimalChunkSize s = 5 * 1024 * 1024 ∨
          getOptimalChunkSize s = 10 * 1024 * 1024 ∨
          getOptimalChunkSize s = 25 * 1024 * 1024 ∨
          getOptimalChunkSize s = 50 * 1024 * 1024 ∨
          getOptimalChunkSize s = 100 * 1024 * 1024) := by
  refine ⟨?_, ?_, ?_, ?_, ?_, ?_, ?_⟩
  · intro s h; unfold getOptimalChunkSize; rw [if_pos h]
  · intro s h1 h2; unfold getOptimalChunkSize; split_ifs <;> omega
  · intro s h1 h2; unfold getOptimalChunkSize; split_ifs <;> omega
  · intro s h1 h2; unfold getOptimalChunkSize; split_ifs <;> omega
  · intro s h; unfold getOptimalChunkSize; split_ifs <;> omega
  · intro a b h; unfold getOptimalChunkSize; split_ifs <;> omega
  · intro s; unfold getOptimalChunkSize; split_ifs <;> simp

/-- C10 witness: the tier equations evaluated at representative sizes. -/
theorem chunkSizeFor_tiers_witness :
    getOptimalChunkSize 1000 = 5 * 1024 * 1024 ∧
    getOptimalChunkSize (200 * 1024 * 1024) = 10 * 1024 * 1024 ∧
    getOptimalChunkSize (2 * 1024 * 1024 * 1024) = 25 * 1024 * 1024 ∧
    getOptimalChunkSize (6 * 1024 * 1024 * 1024) = 50 * 1024 * 1024 ∧
    getOptimalChunkSize (20 * 1024 * 1024 * 1024) = 100 * 1024 * 1024 ∧
    getOptimalChunkSize 1000 ≤ getOptimalChunkSize (20 * 1024 * 1024 * 1024) :=
  ⟨chunkSizeFor_tiers.1 1000 (by norm_num),
   chunkSizeFor_tiers.2.1 (200 * 1024 * 1024) (by norm_num) (by norm_num),
   chunkSizeFor_tiers.2.2.1 (2 * 1024 * 1024 * 1024) (by norm_num) (by norm_num),
   chunkSizeFor_tiers.2.2.2.1 (6 * 1024 * 1024 * 1024) (by norm_num) (by norm_num),
   chunkSizeFor_tiers.2.2.2.2.1 (20 * 1024 * 1024 * 1024) (by norm_num),
   chunkSizeFor_tiers.2.2.2.2.2.1 1000 (20 * 1024 * 1024 * 1024) (by norm_num)⟩

/-! ## C5 -/

/-- C5: on both multipart completion paths (the manual `uploadLargeFile`
loop and `resumeMultipartUpload`), the part list submitted to the
complete-multipart call is sorted strictly ascending by part number and
contains exactly the part numbers 1..N (N the number of chunks), with no
duplicate and no missing number. -/
theorem complete_part_lists_exact (fileSize : Nat) (existing : Nat → Bool) :
    ((uploadLargeFileSortedParts fileSize).map PartRecord.partNumber =
        (List.range (ceilDiv fileSize largeFileChunkSize)).map (fun i => i + 1) ∧
      List.Pairwise (fun a b => a < b)
        ((uploadLargeFileSortedParts fileSize).map PartRecord.partNumber) ∧
      ∀ k, k ∈ (uploadLargeFileSortedParts fileSize).map PartRecord.partNumber ↔
        1 ≤ k ∧ k ≤ ceilDiv fileSize largeFileChunkSize) ∧
    ((resumeMultipartSortedParts fileSize existing).map PartRecord.partNumber =
        (List.range (ceilDiv fileSize (getOptimalChunkSize fileSize))).map (fun i => i + 1) ∧
      List.Pairwise (fun a b => a < b)
        ((resumeMultipartSortedParts fileSize existing).map PartRecord.partNumber) ∧
      ∀ k, k ∈ (resumeMultipartSortedParts fileSize existing).map PartRecord.partNumber ↔
        1 ≤ k ∧ k ≤ ceilDiv fileSize (getOptimalChunkSize fileSize)) := by
  have h1 : uploadLargeFileSortedParts fileSize = uploadLargeFileParts fileSize := by
    unfold uploadLargeFileSortedParts uploadLargeFileParts
    exact List.Sorted.insertionSort_eq (sorted_parts_of_mk _ _ (fun i => rfl))
  have h2 : resumeMultipartSortedParts fileSize existing =
      resumeMultipartParts fileSize existing := by
    unfold resumeMultipartSortedParts resumeMultipartParts
    exact List.Sorted.insertionSort_eq (sorted_parts_of_mk _ _ (fun i => rfl))
  constructor
  · rw [h1]
    unfold uploadLargeFileParts
    rw [partNumbers_of_mk _ _ (fun i => rfl)]
    exact ⟨rfl, pairwise_lt_map_add_one_range _, fun k => mem_map_add_one_range _ k⟩
  · rw [h2]
    unfold resumeMultipartParts
    rw [partNumbers_of_mk _ _ (fun i => rfl)]
    exact ⟨rfl, pairwise_lt_map_add_one_range _, fun k => mem_map_add_one_range _ k⟩

/-- C5 witness: a 250 MB manual upload submits parts [1, 2, 3]; a 23 MiB
resumed upload (5 MiB chunks, parts 2 and 4 already uploaded) submits
parts [1, 2, 3, 4, 5]. -/
theorem complete_part_lists_exact_witness :
    (uploadLargeFileSortedParts (250 * 1024 * 1024)).map PartRecord.partNumber =
      (List.range (ceilDiv (250 * 1024 * 1024) largeFileChunkSize)).map (fun i => i + 1) ∧
    (1 ∈ (resumeMultipartSortedParts (23 * 1024 * 1024) (fun n => n % 2 == 0)).map
        PartRecord.partNumber ↔
      1 ≤ 1 ∧ 1 ≤ ceilDiv (23 * 1024 * 1024) (getOptimalChunkSize (23 * 1024 * 1024))) :=
  ⟨(complete_part_lists_exact (250 * 1024 * 1024) (fun _ => false)).1.1,
   (complete_part_lists_exact (23 * 1024 * 1024) (fun n => n % 2 == 0)).2.2.2 1⟩

/-! ## C2 -/

/-- C2 counterexample: a 500 MiB file lies in [100 MiB, 1 GiB), yet
`uploadToS3Enhanced` routes it to the manual sequential multipart loop
with 100 MiB chunks, not to the managed multipart uploader with
concurrency 4 and `chunkSizeFor`-sized parts. -/
theorem selectUploadStrategy_100MiB_1GiB_counterexample :
    (100 * 1024 * 1024 ≤ 500 * 1024 * 1024 ∧
      500 * 1024 * 1024 < 1024 * 1024 * 1024) ∧
    selectUploadStrategy (500 * 1024 * 1024) ≠
      UploadStrategy.managedMultipart 4 (getOptimalChunkSize (500 * 1024 * 1024)) ∧
    selectUploadStrategy (500 * 1024 * 1024) =
      UploadStrategy.manualMultipart (100 * 1024 * 1024) := by
  refine ⟨⟨by norm_num, by norm_num⟩, ?_, ?_⟩ <;>
    simp [selectUploadStrategy, getOptimalChunkSize, largeFileChunkSize,
      OPTIMAL_CHUNK_SIZE, LARGE_FILE_THRESHOLD]

/-- C2 amended: every file of at least 100 MiB (including the whole
[100 MiB, 1 GiB) range of the claim) is uploaded via the manual
sequential multipart path with 100 MiB chunks; the managed multipart
uploader with part concurrency 4 is used for the [25 MiB, 100 MiB) range
instead, with a fixed 10 MiB part size rather than the Chunking Policy
value. -/
theorem selectUploadStrategy_tiers :
    (∀ s, 100 * 1024 * 1024 ≤ s →
      selectUploadStrategy s = UploadStrategy.manualMultipart (100 * 1024 * 1024)) ∧
    (∀ s, 25 * 1024 * 1024 ≤ s → s < 100 * 1024 * 1024 →
      selectUploadStrategy s = UploadStrategy.managedMultipart 4 (10 * 1024 * 1024)) ∧
    (∀ s, s < 25 * 1024 * 1024 → selectUploadStrategy s = UploadStrategy.simplePut) := by
  have hchunk : largeFileChunkSize = 100 * 1024 * 1024 := by
    simp [largeFileChunkSize, OPTIMAL_CHUNK_SIZE]
  refine ⟨?_, ?_, ?_⟩
  · intro s h
    unfold selectUploadStrategy LARGE_FILE_THRESHOLD
    rw [hchunk]
    split_ifs <;> first | rfl | omega
  · intro s h h2
    unfold selectUploadStrategy LARGE_FILE_THRESHOLD
    rw [hchunk]
    split_ifs <;> first | rfl | omega
  · intro s h
    unfold selectUploadStrategy LARGE_FILE_THRESHOLD
    rw [hchunk]
    split_ifs <;> first | rfl | omega

/-- C2 amended witness: the amended tier dispatch evaluated at 500 MiB,
30 MiB and 1 MiB. -/
theorem selectUploadStrategy_tiers_witness :
    selectUploadStrategy (500 * 1024 * 1024) =
      UploadStrategy.manualMultipart (100 * 1024 * 1024) ∧
    selectUploadStrategy (30 * 1024 * 1024) =
      UploadStrategy.managedMultipart 4 (10 * 1024 * 1024) ∧
    selectUploadStrategy (1024 * 1024) = UploadStrategy.simplePut :=
  ⟨selectUploadStrategy_tiers.1 (500 * 1024 * 1024) (by norm_num),
   selectUploadStrategy_tiers.2.1 (30 * 1024 * 1024) (by norm_num) (by norm_num),
   selectUploadStrategy_tiers.2.2 (1024 * 1024) (by norm_num)⟩

/-! ## C1 -/

/-- C1: the archive guard of `getS3DownloadUrlEnhanced` does NOT reject
an archived object that was never restored.  For the `HeadObject` answer
`StorageClass: GLACIER` with no `Restore` header - an archived object
that is not currently restored - `checkGlacierStatus` reports
`isGlacier: true, restoreStatus: null`, and the guard
`isGlacier && !restoreStatus?.ongoingRequest === false` evaluates to
`false`, so no download error is thrown and the function proceeds to
hand out a signed URL.  In general the guard throws exactly when a
restore is currently ongoing (the one archived case that is about to
become readable), the opposite of the specified behaviour. -/
theorem download_guard_misses_archived_unrestored :
    (checkGlacierStatus "GLACIER" false none).isGlacier = true ∧
    (checkGlacierStatus "GLACIER" false none).restoreStatus = none ∧
    downloadGuardThrows (checkGlacierStatus "GLACIER" false none) = false ∧
    (∀ st : GlacierStatus,
      downloadGuardThrows st = (st.isGlacier && ongoingRequestIsTrue st)) := by
  refine ⟨rfl, rfl, rfl, ?_⟩
  intro st
  cases st with
  | mk g r => cases r <;> rfl

/-! ## C7 -/

/-- C7: `restoreFromGlacier` is idempotent on its status check.  When the
check reports a restoration already ongoing it returns status
`in_progress` immediately and sends no restore request; when the check
reports the restored copy already ready it returns status `completed`
("already restored and available") immediately, also without sending a
restore request. -/
theorem restoreFromGlacier_idempotent (storageClass : String)
    (restorePresent : Bool) (ongoingMatch : Option String) :
    (ongoingRequestIsTrue (checkGlacierStatus storageClass restorePresent ongoingMatch) = true →
      restoreFromGlacier (checkGlacierStatus storageClass restorePresent ongoingMatch) =
        { status := .inProgress, issuedRestoreRequest := false }) ∧
    (restoreStatusIsReady (checkGlacierStatus storageClass restorePresent ongoingMatch) = true →
      restoreFromGlacier (checkGlacierStatus storageClass restorePresent ongoingMatch) =
        { status := .completed, issuedRestoreRequest := false }) := by
  constructor
  · intro h
    unfold restoreFromGlacier
    rw [h]
    simp
  · intro h
    have hnot : ongoingRequestIsTrue
        (checkGlacierStatus storageClass restorePresent ongoingMatch) = false := by
      simp only [checkGlacierStatus, ongoingRequestIsTrue, restoreStatusIsReady] at h ⊢
      by_cases hg :
          ((storageClass == "GLACIER" || storageClass == "DEEP_ARCHIVE") && restorePresent) = true
      · simp only [hg, if_pos] at h ⊢
        cases ongoingMatch with
        | none => simp_all
        | some s =>
          by_cases ht : s = "true" <;> by_cases hf : s = "false" <;> simp_all
      · simp only [Bool.not_eq_true] at hg
        simp [hg] at h
    unfold restoreFromGlacier
    rw [hnot, h]
    simp

/-- C7 witness: an object mid-restoration (`ongoing-request="true"`)
yields `in_progress` with no request issued; an object already restored
(`ongoing-request="false"`) yields `completed` with no request issued. -/
theorem restoreFromGlacier_idempotent_witness :
    restoreFromGlacier (checkGlacierStatus "GLACIER" true (some "true")) =
      { status := .inProgress, issuedRestoreRequest := false } ∧
    restoreFromGlacier (checkGlacierStatus "GLACIER" true (some "false")) =
      { status := .completed, issuedRestoreRequest := false } :=
  ⟨(restoreFromGlacier_idempotent "GLACIER" true (some "true")).1 (by decide),
   (restoreFromGlacier_idempotent "GLACIER" true (some "false")).2 (by decide)⟩

/-! ## C8 -/

/-- The sequential tally loop adds exactly one success or one failure per
attempted item. -/
theorem bulkRestoreLoop_total (outcome : String → Bool) :
    ∀ (l : List BulkEntry) (sc fc : Nat),
      (bulkRestoreLoop outcome l (sc, fc)).1 + (bulkRestoreLoop outcome l (sc, fc)).2 =
        sc + fc + l.length := by
  intro l
  induction l with
  | nil => intro sc fc; simp [bulkRestoreLoop]
  | cons item rest ih =>
    intro sc fc
    unfold bulkRestoreLoop
    by_cases h : outcome item.key = true
    · rw [if_pos h, ih]; simp; omega
    · rw [if_neg h, ih]; simp; omega

/-- C8 counterexample: the bulk-restore result carries no `totalFiles`
field, so the claimed result shape `{totalFiles, restoredFiles,
failedFiles}` is false on a concrete run.  On the two-object listing
`wBulkObjs` (one archived-and-not-ready object) with the restore request
failing, `restoreFromGlacierBulk` returns the tally object whose field
names are exactly `message`, `restoredFiles`, `failedFiles`; and on the
listing `wReadyObjs` whose only archived object is already restored, the
early return carries only `message` and `restoredFiles` - not even a
`failedFiles` field. -/
theorem restoreFromGlacierBulk_no_totalFiles_counterexample :
    restoreFromGlacierBulk wBulkObjs (fun _ => false) = .ok (.done 0 1) ∧
    bulkResultFields (.done 0 1) = ["message", "restoredFiles", "failedFiles"] ∧
    "totalFiles" ∉ bulkResultFields (.done 0 1) ∧
    restoreFromGlacierBulk wReadyObjs (fun _ => true) = .ok .noCandidates ∧
    bulkResultFields .noCandidates = ["message", "restoredFiles"] ∧
    "failedFiles" ∉ bulkResultFields .noCandidates := by
  refine ⟨rfl, rfl, ?_, rfl, rfl, ?_⟩ <;> decide

/-- C8 amended: whenever `restoreFromGlacierBulk` returns a result, the
returned object carries `message` and `restoredFiles`, plus
`failedFiles` on the tally path, and never a `totalFiles` field; the
tallied `restoredFiles + failedFiles` equals the number of attempted
objects - exactly the listed objects whose status probe reported
archived-and-not-ready - and hence is at most the number of objects
listed under the prefix; every attempted object comes from the listing
and was archived-and-not-ready; a failed item is tallied without
aborting the remaining attempts (the equality holds for every per-item
outcome). -/
theorem restoreFromGlacierBulk_tally (objs : List BulkEntry)
    (outcome : String → Bool) (r : BulkResult)
    (h : restoreFromGlacierBulk objs outcome = .ok r) :
    "totalFiles" ∉ bulkResultFields r ∧
    r.restored + r.failed = (glacierObjects objs).length ∧
    r.restored + r.failed ≤ objs.length ∧
    ∀ o ∈ glacierObjects objs,
      o ∈ objs ∧ ∃ st, o.status = some st ∧ archivedNotReady st = true := by
  have hfields : "totalFiles" ∉ bulkResultFields r := by
    cases r with
    | noCandidates => decide
    | done a b =>
      show "totalFiles" ∉ ["message", "restoredFiles", "failedFiles"]
      decide
  have hlen : (glacierObjects objs).length ≤ objs.length :=
    List.length_filter_le _ _
  have hmem : ∀ o ∈ glacierObjects objs,
      o ∈ objs ∧ ∃ st, o.status = some st ∧ archivedNotReady st = true := by
    intro o ho
    have := List.mem_filter.mp ho
    refine ⟨this.1, ?_⟩
    rcases this with ⟨-, hp⟩
    cases hst : o.status with
    | none => rw [hst] at hp; simp at hp
    | some st => rw [hst] at hp; exact ⟨st, rfl, hp⟩
  have htally : r.restored + r.failed = (glacierObjects objs).length := by
    unfold restoreFromGlacierBulk at h
    by_cases h1 : objs.isEmpty
    · simp only [h1, if_true] at h
      exact Except.noConfusion h
    · simp only [h1, if_false, Bool.false_eq_true] at h
      by_cases h2 : (glacierObjects objs).isEmpty
      · simp only [h2, if_true] at h
        rw [Except.ok.injEq] at h
        subst h
        simp only [BulkResult.restored, BulkResult.failed, Nat.add_zero]
        exact (List.isEmpty_iff_length_eq_zero.mp h2).symm
      · simp only [h2, if_false, Bool.false_eq_true] at h
        rcases hp : bulkRestoreLoop outcome (glacierObjects objs) (0, 0) with ⟨sc, fc⟩
        rw [hp] at h
        rw [Except.ok.injEq] at h
        subst h
        have := bulkRestoreLoop_total outcome (glacierObjects objs) 0 0
        rw [hp] at this
        simpa [BulkResult.restored, BulkResult.failed] using this
  exact ⟨hfields, htally, htally ▸ hlen, hmem⟩

/-- C8 amended witness: on a listing of two objects of which one is
archived-and-not-ready, with every restore request failing, the result
has no `totalFiles` field and tallies 0 restored and 1 failed, with
0 + 1 at most 2. -/
theorem restoreFromGlacierBulk_tally_witness :
    "totalFiles" ∉ bulkResultFields (BulkResult.done 0 1) ∧
    (BulkResult.done 0 1).restored + (BulkResult.done 0 1).failed =
      (glacierObjects wBulkObjs).length ∧
    (BulkResult.done 0 1).restored + (BulkResult.done 0 1).failed ≤ wBulkObjs.length ∧
    ∀ o ∈ glacierObjects wBulkObjs,
      o ∈ wBulkObjs ∧ ∃ st, o.status = some st ∧ archivedNotReady st = true :=
  restoreFromGlacierBulk_tally wBulkObjs (fun _ => false) (BulkResult.done 0 1) (by rfl)

/-! ## C4 -/

/-- A keyed registry map leaves the list unchanged when no entry has the
key. -/
theorem map_keyed_noop (l : List Transfer) (id : Nat) (g : Transfer → Transfer)
    (h : ∀ a ∈ l, a.id ≠ id) :
    l.map (fun a => if a.id = id then g a else a) = l := by
  induction l with
  | nil => rfl
  | cons x xs ih =>
    simp only [List.map_cons]
    rw [if_neg (h x (List.mem_cons_self x xs)),
      ih (fun a ha => h a (List.mem_cons_of_mem x ha))]

/-- C4 counterexample: `updateTransferProgress` does not clamp.  On the
registry holding the single transfer created at timestamp 1, the call
`updateTransferProgress(1, 200, 100)` sets `progress` to
`Math.round(100 * 200 / 100) = 200`, which is greater than 100 - the
claim that the resulting progress is never greater than 100 is false. -/
theorem updateTransferProgress_unclamped_counterexample :
    ((updateTransferProgress 1 200 100 600 wState0).transfers.map
      (fun t => t.progress)) = [some 200] ∧ ¬ (200 ≤ 100) := by
  constructor
  · rfl
  · omega

/-- C4 amended: for every call `updateTransferProgress(id, loaded,
total)`, every registry entry with that id gets
`progress = round(100 * loaded / total)`; that value is a defined
percentage within [0, 100] whenever `0 < total` and `loaded ≤ total`
(the code does not clamp, so `loaded > total` produces a value above
100, and a zero `total` produces a non-finite value); entries with other
ids are untouched, and when no entry has the id the registry is left
unchanged (silent no-op). -/
theorem updateTransferProgress_spec :
    (∀ s id loaded total now tr,
      tr ∈ (updateTransferProgress id loaded total now s).transfers →
      tr.id = id → tr.progress = progressOf loaded total) ∧
    (∀ loaded total, 0 < total → loaded ≤ total →
      ∃ p, progressOf loaded total = some p ∧ p ≤ 100) ∧
    (∀ s id loaded total now, (∀ tr ∈ s.transfers, tr.id ≠ id) →
      updateTransferProgress id loaded total now s = s) := by
  refine ⟨?_, ?_, ?_⟩
  · intro s id loaded total now tr htr hid
    unfold updateTransferProgress at htr
    simp only [List.mem_map] at htr
    obtain ⟨a, ha, heq⟩ := htr
    by_cases h : a.id = id
    · rw [if_pos h] at heq
      rw [← heq]
    · rw [if_neg h] at heq
      subst heq
      exact absurd hid h
  · intro loaded total ht hl
    refine ⟨(2 * (100 * loaded) + total) / (2 * total), ?_, ?_⟩
    · unfold progressOf
      rw [if_neg (by omega)]
    · rw [← Nat.lt_succ_iff, Nat.div_lt_iff_lt_mul (by omega)]
      omega
  · intro s id loaded total now hnone
    unfold updateTransferProgress
    rw [map_keyed_noop s.transfers id _ hnone]

/-- C4 amended witness: on the registry holding the transfer created at
timestamp 1, `updateTransferProgress(1, 40, 100)` yields the rounded
percentage 40; the percentage is within bounds for `loaded = 40`,
`total = 100`; and an update keyed by the absent id 2 is a no-op. -/
theorem updateTransferProgress_spec_witness :
    (∃ p, progressOf 40 100 = some p ∧ p ≤ 100) ∧
    updateTransferProgress 2 40 100 600 wState0 = wState0 :=
  ⟨updateTransferProgress_spec.2.1 40 100 (by omega) (by omega),
   updateTransferProgress_spec.2.2 wState0 2 40 100 600 (by decide)⟩

/-! ## C3 -/

/-- C3 counterexample: a cancelled Transfer does transition to
`completed`.  Create a transfer at timestamp 1, cancel it, then let one
restore-poll tick observe `ongoing-request="false"` (restore ready): the
tick calls `completeTransfer` without inspecting the Transfer's state,
and the cancelled Transfer's status becomes `completed`. -/
theorem cancelled_becomes_completed_counterexample :
    ((cancelTransfer 1 wState0).transfers.map (fun t => t.status)) =
      [TransferStatus.cancelled] ∧
    (((pollTick (checkGlacierStatus "GLACIER" true (some "false")) 1 61
        (cancelTransfer 1 wState0)).1.transfers.map (fun t => t.status)) =
      [TransferStatus.completed]) := by
  exact ⟨rfl, rfl⟩

/-- C3 amended: a cancelled Transfer is never transitioned to
`completed` by `updateTransferProgress`, `pauseTransfer`,
`errorTransfer`, `cancelTransfer` or `removeTransfer` - none of these
operations ever produces a `completed` status that was not already
there.  `completeTransfer`, however, sets `completed` unconditionally on
any entry with the given id regardless of its current status, and the
restore-status polling tick invokes it whenever the restore reports
ready (or the object left archive storage) without inspecting the
Transfer, so cancellation does not stop the poll from completing the
Transfer. -/
theorem no_completion_by_safe_ops :
    (∀ s id loaded total now tr,
      tr ∈ (updateTransferProgress id loaded total now s).transfers →
      tr.status = .completed →
      ∃ tr0 ∈ s.transfers, tr0.id = tr.id ∧ tr0.status = .completed) ∧
    (∀ s id now tr, tr ∈ (pauseTransfer id now s).transfers →
      tr.status = .completed →
      ∃ tr0 ∈ s.transfers, tr0.id = tr.id ∧ tr0.status = .completed) ∧
    (∀ s id msg now tr, tr ∈ (errorTransfer id msg now s).transfers →
      tr.status = .completed →
      ∃ tr0 ∈ s.transfers, tr0.id = tr.id ∧ tr0.status = .completed) ∧
    (∀ s id tr, tr ∈ (cancelTransfer id s).transfers →
      tr.status = .completed →
      ∃ tr0 ∈ s.transfers, tr0.id = tr.id ∧ tr0.status = .completed) ∧
    (∀ s id tr, tr ∈ (removeTransfer id s).transfers →
      tr.status = .completed →
      ∃ tr0 ∈ s.transfers, tr0.id = tr.id ∧ tr0.status = .completed) := by
  refine ⟨?_, ?_, ?_, ?_, ?_⟩
  · intro s id loaded total now tr htr hst
    unfold updateTransferProgress at htr
    simp only [List.mem_map] at htr
    obtain ⟨a, ha, heq⟩ := htr
    by_cases h : a.id = id
    · rw [if_pos h] at heq
      refine ⟨a, ha, ?_, ?_⟩
      · rw [← heq]
      · rw [← heq] at hst
        exact hst
    · rw [if_neg h] at heq
      exact ⟨a, ha, by rw [heq], by rw [heq]; exact hst⟩
  · intro s id now tr htr hst
    unfold pauseTransfer at htr
    simp only [List.mem_map] at htr
    obtain ⟨a, ha, heq⟩ := htr
    by_cases h : a.id = id
    · rw [if_pos h] at heq
      rw [← heq] at hst
      exact absurd hst (by simp)
    · rw [if_neg h] at heq
      exact ⟨a, ha, by rw [heq], by rw [heq]; exact hst⟩
  · intro s id msg now tr htr hst
    unfold errorTransfer at htr
    simp only [List.mem_map] at htr
    obtain ⟨a, ha, heq⟩ := htr
    by_cases h : a.id = id
    · rw [if_pos h] at heq
      rw [← heq] at hst
      exact absurd hst (by simp)
    · rw [if_neg h] at heq
      exact ⟨a, ha, by rw [heq], by rw [heq]; exact hst⟩
  · intro s id tr htr hst
    unfold cancelTransfer at htr
    simp only [List.mem_map] at htr
    obtain ⟨a, ha, heq⟩ := htr
    by_cases h : a.id = id
    · rw [if_pos h] at heq
      rw [← heq] at hst
      exact absurd hst (by simp)
    · rw [if_neg h] at heq
      exact ⟨a, ha, by rw [heq], by rw [heq]; exact hst⟩
  · intro s id tr htr hst
    unfold removeTransfer at htr
    simp only [List.mem_filter] at htr
    exact ⟨tr, htr.1, rfl, hst⟩

/-- C3 amended witness: on the registry holding only the completed
transfer `cTr`, a progress update keyed by the absent id 2 leaves a
completed entry whose pre-image is exhibited by the theorem. -/
theorem no_completion_by_safe_ops_witness :
    ∃ tr0 ∈ (⟨[cTr], []⟩ : TrackerState).transfers,
      tr0.id = cTr.id ∧ tr0.status = .completed :=
  no_completion_by_safe_ops.1 ⟨[cTr], []⟩ 2 10 100 700 cTr (by decide) (by decide)

/-! ## C6 -/

/-- C6 counterexample: two `addTransfer` calls in the same millisecond
(`Date.now()` returning 5 both times) return the SAME id, and the
registry then holds two transfers with the duplicate id - the claim that
any two calls return distinct ids is false. -/
theorem addTransfer_same_millisecond_counterexample :
    (addTransfer 5 dFile emptyTracker).1 =
      (addTransfer 5 dFile (addTransfer 5 dFile emptyTracker).2).1 ∧
    ((addTransfer 5 dFile (addTransfer 5 dFile emptyTracker).2).2.transfers.map
      (fun t => t.id)) = [5, 5] := by
  exact ⟨rfl, rfl⟩

/-- C6 amended: an id is the `Date.now()` timestamp of its creation, so
two `addTransfer` calls made at distinct timestamps return distinct ids
(calls within the same millisecond collide); and Tracker progress
updates keyed by one id leave every Transfer carrying a different id
unchanged in the registry, so updates cannot affect a Transfer with a
different id. -/
theorem addTransfer_ids_keyed :
    (∀ now1 now2 d1 d2 s1 s2, now1 ≠ now2 →
      (addTransfer now1 d1 s1).1 ≠ (addTransfer now2 d2 s2).1) ∧
    (∀ id loaded total now s tr, tr ∈ s.transfers → tr.id ≠ id →
      tr ∈ (updateTransferProgress id loaded total now s).transfers) := by
  constructor
  · intro now1 now2 d1 d2 s1 s2 h
    exact h
  · intro id loaded total now s tr htr hid
    unfold updateTransferProgress
    exact List.mem_map.mpr ⟨tr, htr, by simp [hid]⟩

/-- C6 amended witness: `addTransfer` at timestamps 1 and 2 returns
distinct ids; and a progress update keyed by id 2 leaves the transfer
with id 1 in the registry. -/
theorem addTransfer_ids_keyed_witness :
    (addTransfer 1 dFile emptyTracker).1 ≠ (addTransfer 2 dFile emptyTracker).1 ∧
    cTr ∈ (updateTransferProgress 2 10 100 700 (⟨[cTr], []⟩ : TrackerState)).transfers :=
  ⟨addTransfer_ids_keyed.1 1 2 dFile dFile emptyTracker emptyTracker (by decide),
   addTransfer_ids_keyed.2 2 10 100 700 ⟨[cTr], []⟩ cTr (by decide) (by decide)⟩

/-! ## C9 -/

/-- Deleting a key from the paused-snapshots map makes its lookup miss. -/
theorem lookupPaused_deletePaused (m : List (Nat × PausedSnapshot)) (id : Nat) :
    lookupPaused (deletePaused m id) id = none := by
  unfold lookupPaused deletePaused
  rw [List.lookup_eq_none_iff]
  intro p hp
  have h := (List.mem_filter.mp hp).2
  simp only [bne_iff_ne, ne_eq] at h ⊢
  exact fun he => h he.symm

/-- C9: when a paused snapshot exists for `id`, `resumeTransfer` returns
the freshly generated id (the call's timestamp), appends a new Transfer
carrying over the snapshot's `loaded` (not zero), `name`, `type`, `key`
and total size (as `size`), flagged as a resume of the old id, and
deletes the paused snapshot; when no snapshot exists it returns `null`
and leaves the state unchanged. -/
theorem resumeTransfer_spec :
    (∀ s id now snap, lookupPaused s.paused id = some snap →
      (resumeTransfer id now s).1 = some now ∧
      (∃ t ∈ (resumeTransfer id now s).2.transfers,
        t.id = now ∧ t.loaded = snap.loaded ∧ t.name = snap.name ∧
        t.type = snap.type ∧ t.size = snap.total ∧ t.key = snap.key ∧
        t.progress = some 0 ∧ t.status = .inProgress ∧
        t.resumed = true ∧ t.originalId = some id) ∧
      lookupPaused (resumeTransfer id now s).2.paused id = none) ∧
    (∀ s id now, lookupPaused s.paused id = none →
      resumeTransfer id now s = (none, s)) := by
  constructor
  · intro s id now snap h
    unfold resumeTransfer addTransfer
    rw [h]
    refine ⟨rfl, ?_, lookupPaused_deletePaused _ id⟩
    exact ⟨_, List.mem_append_right _ (List.mem_singleton_self _),
      rfl, rfl, rfl, rfl, rfl, rfl, rfl, rfl, rfl, rfl⟩
  · intro s id now h
    unfold resumeTransfer
    rw [h]

/-- C9 witness: pause the 40%-progressed upload (40000 of 100000 bytes)
at timestamp 700, resume at timestamp 900: the returned id is 900, the
new Transfer starts at `loaded = 40000` with the snapshot's key, name,
type and total size, and the snapshot is gone. -/
theorem resumeTransfer_spec_witness :
    ((resumeTransfer 1 900 wStatePaused).1 = some 900 ∧
      (∃ t ∈ (resumeTransfer 1 900 wStatePaused).2.transfers,
        t.id = 900 ∧ t.loaded = wSnap.loaded ∧ t.name = wSnap.name ∧
        t.type = wSnap.type ∧ t.size = wSnap.total ∧ t.key = wSnap.key ∧
        t.progress = some 0 ∧ t.status = .inProgress ∧
        t.resumed = true ∧ t.originalId = some 1) ∧
      lookupPaused (resumeTransfer 1 900 wStatePaused).2.paused 1 = none) ∧
    resumeTransfer 42 900 wStatePaused = (none, wStatePaused) :=
  ⟨(resumeTransfer_spec.1 wStatePaused 1 900 wSnap (by decide)),
   resumeTransfer_spec.2 wStatePaused 42 900 (by decide)⟩
